import Mathlib

/-!
Verification of the live-preview pipeline of the `tav` repository.

The bridge protocol, the preview/build state machine and the play-mode
action resolution are shallowly embedded from
`src/components/TabbedEditor.tsx` (the `Viewfinder` component) and from the
zustand store (`sendMessage` and the preview setters).  JavaScript promises
are modelled by a first-resolution-wins cell, `window.postMessage` traffic by
an explicit event list, and React effects by an explicit lifecycle machine.
-/

namespace Tav

/-! ### Bridge channel: messages and calls

Translated from the three bridge operations registered in `runPreview`
(`setCaptureFrame`, `setTestControls`, `setCaptureNode`,
`TabbedEditor.tsx` lines 392-502).  An incoming `MessageEvent`'s `event.data`
is modelled with the fields those handlers read; absent fields are `none`. -/

structure BridgeMsg where
  type : Option String := none
  data : Option String := none
  before : Option String := none
  after : Option String := none
  stateBefore : Option String := none
  stateAfter : Option String := none
  bridgeUsed : Option Bool := none
  requestId : Option String := none
  result : Option String := none
deriving DecidableEq

/-- Payload of a resolved `kobold-test-result` message, as assembled by the
`setTestControls` handler (lines 444-450). -/
structure TestResult where
  before : Option String
  after : Option String
  stateBefore : Option String
  stateAfter : Option String
  bridgeUsed : Option Bool
deriving DecidableEq

/-- State of one outstanding bridge call: whether the `message` listener is
still attached, and the promise cell.  `resolved = none` means the promise is
still pending; `resolved = some v` means it settled with `v` (where `v = none`
is JS `null`). -/
structure CallState (β : Type) where
  listenerActive : Bool
  resolved : Option (Option β)
deriving DecidableEq

/-- JS promise semantics: only the first call to `resolve` settles the
promise; later calls are no-ops. -/
def resolveOnce {α : Type} (r : Option α) (v : α) : Option α :=
  match r with
  | none => some v
  | some w => some w

/-- Events observable by one pending call: an incoming window message, or the
firing of the `setTimeout` timer registered by the call. -/
inductive BridgeEvent where
  | msg (m : BridgeMsg)
  | timeout
deriving DecidableEq

/-- A matcher returns `none` when the handler ignores the message, and
`some v` when it removes the listener and resolves the promise with `v`. -/
def stepCall {β : Type} (matcher : BridgeMsg → Option (Option β))
    (s : CallState β) : BridgeEvent → CallState β
  | .msg m =>
      if s.listenerActive then
        match matcher m with
        | some v => ⟨false, resolveOnce s.resolved v⟩
        | none => s
      else s
  | .timeout => ⟨false, resolveOnce s.resolved none⟩

/-- Initial state of a call.  When `iframeRef.current?.contentWindow` is
absent the call resolves `null` immediately and registers nothing
(lines 396-400); otherwise a listener is attached and the promise pends. -/
def initCall {β : Type} (hasIframe : Bool) : CallState β :=
  if hasIframe then ⟨true, none⟩ else ⟨false, some none⟩

/-- Processing of a whole event sequence by one pending call. -/
def runCall {β : Type} (matcher : BridgeMsg → Option (Option β))
    (s : CallState β) : List BridgeEvent → CallState β
  | [] => s
  | e :: rest => runCall matcher (stepCall matcher s e) rest

/-- Two concurrent calls attached to the same window: every message is
delivered to both listeners. -/
def broadcast2 {β : Type} (matcher : BridgeMsg → Option (Option β))
    (p : CallState β × CallState β) (e : BridgeEvent) :
    CallState β × CallState β :=
  (stepCall matcher p.1 e, stepCall matcher p.2 e)

/-- Matcher of the `setCaptureFrame` handler (lines 402-413): resolves
`event.data.data` on `kobold-capture-result`, `null` on
`kobold-capture-error`; no correlation id is consulted. -/
def captureFrameMatch (m : BridgeMsg) : Option (Option String) :=
  if m.type = some "kobold-capture-result" then some m.data
  else if m.type = some "kobold-capture-error" then some none
  else none

/-- Matcher of the `setTestControls` handler (lines 437-456): resolves the
assembled result object on `kobold-test-result`, `null` on
`kobold-test-error`; no correlation id is consulted. -/
def testControlsMatch (m : BridgeMsg) : Option (Option TestResult) :=
  if m.type = some "kobold-test-result" then
    some (some ⟨m.before, m.after, m.stateBefore, m.stateAfter, m.bridgeUsed⟩)
  else if m.type = some "kobold-test-error" then some none
  else none

/-- Matcher of the `setCaptureNode` handler (lines 481-491): requires both
the message type and `event.data.requestId === requestId`. -/
def captureNodeMatch (requestId : String) (m : BridgeMsg) :
    Option (Option String) :=
  if m.type = some "kobold-capture-node-result" ∧ m.requestId = some requestId
    then some m.result
  else if m.type = some "kobold-capture-node-error" ∧ m.requestId = some requestId
    then some none
  else none

/-- Timeout of `setCaptureFrame` (line 422). -/
def captureFrameTimeoutMs : Nat := 2000

/-- Timeout of `setTestControls` (line 465): `duration + 3000`. -/
def testControlsTimeoutMs (duration : Nat) : Nat := duration + 3000

/-- Timeout of `setCaptureNode` (line 500). -/
def captureNodeTimeoutMs : Nat := 15000

/-- A message posted into the iframe, with the fields the three calls send. -/
structure PostedMsg where
  type : String
  requestId : Option String := none
  actions : List String := []
  duration : Nat := 0
  nodeId : Option String := none
deriving DecidableEq

/-- Request posted by `captureFrame` (line 417): type only, no id. -/
def captureFramePost : PostedMsg := { type := "kobold-capture" }

/-- Request posted by `testControls` (line 460): type, actions and duration,
no id. -/
def testControlsPost (actions : List String) (duration : Nat) : PostedMsg :=
  { type := "kobold-test-controls", actions := actions, duration := duration }

/-- Correlation id generated by `captureNode` (line 480):
`Date.now().toString()`. -/
def newRequestId (now : Nat) : String := toString now

/-- Request posted by `captureNode` (line 494): type, node id and the
generated request id. -/
def captureNodePost (nodeId requestId : String) : PostedMsg :=
  { type := "kobold-capture-node", nodeId := some nodeId,
    requestId := some requestId }

/-! ### Generic lemmas about one pending call -/

theorem resolveOnce_isSome {α : Type} (r : Option α) (v : α) :
    (resolveOnce r v).isSome = true := by
  cases r <;> rfl

theorem stepCall_stable {β : Type} (matcher : BridgeMsg → Option (Option β))
    (s : CallState β) (e : BridgeEvent) (v : Option β)
    (h : s.resolved = some v) : (stepCall matcher s e).resolved = some v := by
  cases e with
  | msg m =>
      by_cases hl : s.listenerActive
      · cases hm : matcher m with
        | some w => simp [stepCall, hl, hm, resolveOnce, h]
        | none => simp [stepCall, hl, hm, h]
      · simp [stepCall, hl, h]
  | timeout => simp [stepCall, resolveOnce, h]

theorem runCall_stable {β : Type} (matcher : BridgeMsg → Option (Option β))
    (events : List BridgeEvent) :
    ∀ (s : CallState β) (v : Option β), s.resolved = some v →
      (runCall matcher s events).resolved = some v := by
  induction events with
  | nil => intro s v h; exact h
  | cons e rest ih =>
      intro s v h
      exact ih _ v (stepCall_stable matcher s e v h)

theorem runCall_isSome {β : Type} (matcher : BridgeMsg → Option (Option β))
    (events : List BridgeEvent) (s : CallState β)
    (h : s.resolved.isSome = true) :
    (runCall matcher s events).resolved.isSome = true := by
  obtain ⟨v, hv⟩ := Option.isSome_iff_exists.mp h
  rw [runCall_stable matcher events s v hv]
  rfl

theorem runCall_timeout_isSome {β : Type}
    (matcher : BridgeMsg → Option (Option β)) (events : List BridgeEvent)
    (ht : BridgeEvent.timeout ∈ events) :
    ∀ s : CallState β, (runCall matcher s events).resolved.isSome = true := by
  induction events with
  | nil => cases ht
  | cons e rest ih =>
      intro s
      rcases List.mem_cons.mp ht with he | hr
      · subst he
        exact runCall_isSome matcher rest _ (resolveOnce_isSome s.resolved none)
      · exact ih hr _

theorem runCall_append {β : Type} (matcher : BridgeMsg → Option (Option β))
    (l₁ l₂ : List BridgeEvent) :
    ∀ s : CallState β,
      runCall matcher s (l₁ ++ l₂) = runCall matcher (runCall matcher s l₁) l₂ := by
  induction l₁ with
  | nil => intro s; rfl
  | cons e rest ih => intro s; exact ih _

theorem runCall_no_match {β : Type} (matcher : BridgeMsg → Option (Option β))
    (msgs : List BridgeMsg) (h : ∀ m ∈ msgs, matcher m = none) :
    ∀ s : CallState β, runCall matcher s (msgs.map BridgeEvent.msg) = s := by
  induction msgs with
  | nil => intro s; rfl
  | cons m rest ih =>
      intro s
      have hm : matcher m = none := h m (List.mem_cons_self m rest)
      have hstep : stepCall matcher s (.msg m) = s := by
        by_cases hl : s.listenerActive <;> simp [stepCall, hl, hm]
      simp only [List.map_cons, runCall, hstep]
      exact ih (fun m' hm' => h m' (List.mem_cons_of_mem _ hm')) s

theorem runCall_provenance {β : Type} (matcher : BridgeMsg → Option (Option β))
    (events : List BridgeEvent) :
    ∀ (s : CallState β) (v : Option β),
      (runCall matcher s events).resolved = some v →
      s.resolved = some v ∨ v = none ∨
        ∃ m, BridgeEvent.msg m ∈ events ∧ matcher m = some v := by
  induction events with
  | nil => intro s v h; exact Or.inl h
  | cons e rest ih =>
      intro s v h
      rcases ih _ v h with h1 | h2 | h3
      · cases e with
        | msg m =>
            by_cases hl : s.listenerActive
            · cases hm : matcher m with
              | some w =>
                  rw [stepCall, if_pos hl, hm] at h1
                  cases hs : s.resolved with
                  | some u =>
                      left
                      simpa [resolveOnce, hs] using h1
                  | none =>
                      right; right
                      refine ⟨m, List.mem_cons_self _ _, ?_⟩
                      rw [hm]
                      simpa [resolveOnce, hs] using h1
              | none =>
                  left
                  rw [stepCall, if_pos hl, hm] at h1
                  exact h1
            · left
              rw [stepCall, if_neg hl] at h1
              exact h1
        | timeout =>
            rw [stepCall] at h1
            cases hs : s.resolved with
            | some u =>
                left
                simpa [resolveOnce, hs] using h1
            | none =>
                right; left
                have : resolveOnce s.resolved (none : Option β) = some v := h1
                rw [hs] at this
                simpa [resolveOnce] using this.symm
      · exact Or.inr (Or.inl h2)
      · obtain ⟨m, hm1, hm2⟩ := h3
        exact Or.inr (Or.inr ⟨m, List.mem_cons_of_mem _ hm1, hm2⟩)

theorem initCall_resolved {β : Type} (hasIframe : Bool) (v : Option β)
    (h : (initCall (β := β) hasIframe).resolved = some v) : v = none := by
  cases hasIframe with
  | true => simp [initCall] at h
  | false =>
      simp only [initCall, if_neg Bool.false_ne_true] at h
      exact (Option.some_injective _ h).symm

/-! ### Claim theorems about the bridge channel -/

/-- C1: every bridge call issued through the preview (`captureFrame`,
`testControls` with any action list and duration, `captureNode` with any node
id and options) resolves exactly once.  Since the timeout timer is never
cancelled it eventually fires (`BridgeEvent.timeout ∈ events`), so the promise
settles — never zero times; once settled after any prefix of the events, no
later event changes the settled value — never twice, JS `resolve` being
first-wins; and the settled value is a matched message's value or null (from a
matched error, a timeout, or a missing iframe). -/
theorem C1_bridge_resolves_exactly_once (hasIframe : Bool) (rid : String)
    (events pre suf : List BridgeEvent)
    (ht : BridgeEvent.timeout ∈ events) (hsplit : events = pre ++ suf) :
    ((runCall captureFrameMatch (initCall hasIframe) events).resolved.isSome = true ∧
      (runCall testControlsMatch (initCall hasIframe) events).resolved.isSome = true ∧
      (runCall (captureNodeMatch rid) (initCall hasIframe) events).resolved.isSome = true) ∧
    ((∀ v, (runCall captureFrameMatch (initCall hasIframe) pre).resolved = some v →
        (runCall captureFrameMatch (initCall hasIframe) events).resolved = some v) ∧
      (∀ v, (runCall testControlsMatch (initCall hasIframe) pre).resolved = some v →
        (runCall testControlsMatch (initCall hasIframe) events).resolved = some v) ∧
      (∀ v, (runCall (captureNodeMatch rid) (initCall hasIframe) pre).resolved = some v →
        (runCall (captureNodeMatch rid) (initCall hasIframe) events).resolved = some v)) ∧
    ((∀ v, (runCall captureFrameMatch (initCall hasIframe) events).resolved = some v →
        v = none ∨ ∃ m, BridgeEvent.msg m ∈ events ∧ captureFrameMatch m = some v) ∧
      (∀ v, (runCall testControlsMatch (initCall hasIframe) events).resolved = some v →
        v = none ∨ ∃ m, BridgeEvent.msg m ∈ events ∧ testControlsMatch m = some v) ∧
      (∀ v, (runCall (captureNodeMatch rid) (initCall hasIframe) events).resolved = some v →
        v = none ∨ ∃ m, BridgeEvent.msg m ∈ events ∧ captureNodeMatch rid m = some v)) := by
  subst hsplit
  refine ⟨⟨?_, ?_, ?_⟩, ⟨?_, ?_, ?_⟩, ⟨?_, ?_, ?_⟩⟩
  · exact runCall_timeout_isSome _ _ ht _
  · exact runCall_timeout_isSome _ _ ht _
  · exact runCall_timeout_isSome _ _ ht _
  · intro v hv
    rw [runCall_append]
    exact runCall_stable _ _ _ v hv
  · intro v hv
    rw [runCall_append]
    exact runCall_stable _ _ _ v hv
  · intro v hv
    rw [runCall_append]
    exact runCall_stable _ _ _ v hv
  · intro v hv
    rcases runCall_provenance _ _ _ v hv with h | h | h
    · exact Or.inl (initCall_resolved hasIframe v h)
    · exact Or.inl h
    · exact Or.inr h
  · intro v hv
    rcases runCall_provenance _ _ _ v hv with h | h | h
    · exact Or.inl (initCall_resolved hasIframe v h)
    · exact Or.inl h
    · exact Or.inr h
  · intro v hv
    rcases runCall_provenance _ _ _ v hv with h | h | h
    · exact Or.inl (initCall_resolved hasIframe v h)
    · exact Or.inl h
    · exact Or.inr h

theorem C1_witness :
    (runCall captureFrameMatch (initCall true)
      [BridgeEvent.msg { type := some "kobold-capture-result", data := some "A" },
       BridgeEvent.timeout]).resolved.isSome = true :=
  (C1_bridge_resolves_exactly_once true "17"
      [BridgeEvent.msg { type := some "kobold-capture-result", data := some "A" },
       BridgeEvent.timeout]
      [BridgeEvent.msg { type := some "kobold-capture-result", data := some "A" }]
      [BridgeEvent.timeout] (by decide) rfl).1.1

/-- C2 counterexample: the request posted by `captureFrame` (and by
`testControls`) carries no correlation id at all, and a single result message
resolves two concurrent `captureFrame` calls with the same payload — matching
is on message type alone, so concurrent same-type calls cross-deliver. -/
theorem C2_counterexample :
    captureFramePost.requestId = none ∧
    (testControlsPost ["move_right"] 1000).requestId = none ∧
    (broadcast2 captureFrameMatch (initCall true, initCall true)
        (BridgeEvent.msg { type := some "kobold-capture-result",
                           data := some "imgA" })).1.resolved
      = some (some "imgA") ∧
    (broadcast2 captureFrameMatch (initCall true, initCall true)
        (BridgeEvent.msg { type := some "kobold-capture-result",
                           data := some "imgA" })).2.resolved
      = some (some "imgA") := by
  refine ⟨rfl, rfl, ?_, ?_⟩ <;> decide

/-- C2 amended: only `captureNode` generates a request id
(`Date.now().toString()`), sends it with the request, and accepts an incoming
message only when both the message type and the request id match; `captureFrame`
and `testControls` post no correlation id and their handlers ignore any
`requestId` field, matching on message type alone. -/
theorem C2_amended_correlation (rid : String) (m : BridgeMsg)
    (a b : Option String) :
    (captureNodeMatch rid m ≠ none →
      m.requestId = some rid ∧
        (m.type = some "kobold-capture-node-result" ∨
          m.type = some "kobold-capture-node-error")) ∧
    (∀ nodeId, (captureNodePost nodeId rid).requestId = some rid) ∧
    (captureFrameMatch { m with requestId := a } =
      captureFrameMatch { m with requestId := b }) ∧
    (testControlsMatch { m with requestId := a } =
      testControlsMatch { m with requestId := b }) := by
  refine ⟨?_, fun _ => rfl, rfl, rfl⟩
  intro hne
  unfold captureNodeMatch at hne
  split_ifs at hne with h1 h2
  · exact ⟨h1.2, Or.inl h1.1⟩
  · exact ⟨h2.2, Or.inr h2.1⟩
  · exact absurd rfl hne

/-- Sample incoming node-capture response used to witness the amended C2. -/
def sampleNodeMsg : BridgeMsg :=
  { type := some "kobold-capture-node-result", requestId := some "7",
    result := some "caps" }

theorem C2_amended_witness :
    sampleNodeMsg.requestId = some "7" ∧
      (sampleNodeMsg.type = some "kobold-capture-node-result" ∨
        sampleNodeMsg.type = some "kobold-capture-node-error") :=
  (C2_amended_correlation "7" sampleNodeMsg none (some "x")).1 (by decide)

/-- C4: when no matching response arrives before the deadline (2000 ms for
`captureFrame`, `duration + 3000` ms for `testControls`, 15000 ms for
`captureNode`), the call resolves the distinguished no-response value null —
it does not throw — and the pending message handler is removed. -/
theorem C4_timeout_resolves_null (duration : Nat) (rid : String)
    (msgs : List BridgeMsg)
    (h1 : ∀ m ∈ msgs, captureFrameMatch m = none)
    (h2 : ∀ m ∈ msgs, testControlsMatch m = none)
    (h3 : ∀ m ∈ msgs, captureNodeMatch rid m = none) :
    captureFrameTimeoutMs = 2000 ∧
    testControlsTimeoutMs duration = duration + 3000 ∧
    captureNodeTimeoutMs = 15000 ∧
    runCall captureFrameMatch (initCall true)
        (msgs.map BridgeEvent.msg ++ [BridgeEvent.timeout]) = ⟨false, some none⟩ ∧
    runCall testControlsMatch (initCall true)
        (msgs.map BridgeEvent.msg ++ [BridgeEvent.timeout]) = ⟨false, some none⟩ ∧
    runCall (captureNodeMatch rid) (initCall true)
        (msgs.map BridgeEvent.msg ++ [BridgeEvent.timeout]) = ⟨false, some none⟩ := by
  refine ⟨rfl, rfl, rfl, ?_, ?_, ?_⟩
  · rw [runCall_append, runCall_no_match _ _ h1]
    rfl
  · rw [runCall_append, runCall_no_match _ _ h2]
    rfl
  · rw [runCall_append, runCall_no_match _ _ h3]
    rfl

theorem C4_witness :
    runCall captureFrameMatch (initCall true)
        ([BridgeMsg.mk (some "kobold-focus") none none none none none none none none].map
          BridgeEvent.msg ++ [BridgeEvent.timeout]) = ⟨false, some none⟩ :=
  (C4_timeout_resolves_null 1000 "9"
      [BridgeMsg.mk (some "kobold-focus") none none none none none none none none]
      (by decide) (by decide) (by decide)).2.2.2.1

/-- C10: for each bridge operation, a matched error message and a timeout
produce the same caller-visible result — the call state after an error message
equals the call state after the timeout, both resolving null — so a caller
cannot distinguish a definite remote failure from an unknown outcome; a
non-null resolution can only come from a matched result message. -/
theorem C10_error_equals_timeout (rid : String) :
    (∀ m : BridgeMsg, m.type = some "kobold-capture-error" →
      stepCall captureFrameMatch (initCall true) (BridgeEvent.msg m) =
        stepCall captureFrameMatch (initCall true) BridgeEvent.timeout) ∧
    (∀ m : BridgeMsg, m.type = some "kobold-test-error" →
      stepCall testControlsMatch (initCall true) (BridgeEvent.msg m) =
        stepCall testControlsMatch (initCall true) BridgeEvent.timeout) ∧
    (∀ m : BridgeMsg, m.type = some "kobold-capture-node-error" →
      m.requestId = some rid →
      stepCall (captureNodeMatch rid) (initCall true) (BridgeEvent.msg m) =
        stepCall (captureNodeMatch rid) (initCall true) BridgeEvent.timeout) ∧
    (∀ m v, captureFrameMatch m = some (some v) →
      m.type = some "kobold-capture-result") ∧
    (∀ m v, testControlsMatch m = some (some v) →
      m.type = some "kobold-test-result") ∧
    (∀ m v, captureNodeMatch rid m = some (some v) →
      m.type = some "kobold-capture-node-result" ∧ m.requestId = some rid) := by
  refine ⟨?_, ?_, ?_, ?_, ?_, ?_⟩
  · intro m hm
    have hne : m.type ≠ some "kobold-capture-result" := by
      rw [hm]; decide
    simp [stepCall, captureFrameMatch, initCall, hne, hm]
  · intro m hm
    have hne : m.type ≠ some "kobold-test-result" := by
      rw [hm]; decide
    simp [stepCall, testControlsMatch, initCall, hne, hm]
  · intro m hm hr
    have hne : m.type ≠ some "kobold-capture-node-result" := by
      rw [hm]; decide
    simp [stepCall, captureNodeMatch, initCall, hne, hm, hr]
  · intro m v h
    unfold captureFrameMatch at h
    split_ifs at h with h1 h2
    · exact h1
    · simp at h
  · intro m v h
    unfold testControlsMatch at h
    split_ifs at h with h1 h2
    · exact h1
    · simp at h
  · intro m v h
    unfold captureNodeMatch at h
    split_ifs at h with h1 h2
    · exact ⟨h1.1, h1.2⟩
    · simp at h

theorem C10_witness :
    stepCall captureFrameMatch (initCall true)
        (BridgeEvent.msg { type := some "kobold-capture-error",
                           data := some "boom" }) =
      stepCall captureFrameMatch (initCall true) BridgeEvent.timeout :=
  (C10_error_equals_timeout "9").1
    { type := some "kobold-capture-error", data := some "boom" } rfl

/-! ### JavaScript string primitives used by the Viewfinder

`String.prototype.startsWith` is a prefix test and `String.prototype.replace`
with a string pattern replaces only the first occurrence; both are modelled on
the character lists underlying Lean strings. -/

def jsStartsWith (pre s : String) : Bool := pre.data.isPrefixOf s.data

def replaceFirstAux (pat repl : List Char) : List Char → List Char
  | [] => []
  | c :: rest =>
      if pat.isPrefixOf (c :: rest) then repl ++ (c :: rest).drop pat.length
      else c :: replaceFirstAux pat repl rest

def jsReplaceFirst (pat repl s : String) : String :=
  ⟨replaceFirstAux pat.data repl.data s.data⟩

theorem jsStartsWith_append (pre rest : String) :
    jsStartsWith pre (pre ++ rest) = true := by
  simp [jsStartsWith, String.data_append, List.isPrefixOf_iff_prefix]

theorem replaceFirstAux_strip (pat rest : List Char) (h : pat ≠ []) :
    replaceFirstAux pat [] (pat ++ rest) = rest := by
  cases pat with
  | nil => exact absurd rfl h
  | cons c cs =>
      have hpref : (c :: cs).isPrefixOf (c :: (cs ++ rest)) = true := by
        simp [List.isPrefixOf_iff_prefix]
      show replaceFirstAux (c :: cs) [] (c :: (cs ++ rest)) = rest
      rw [replaceFirstAux, if_pos hpref]
      simp only [List.nil_append, List.length_cons, List.drop_succ_cons]
      exact List.drop_left cs rest

theorem jsReplaceFirst_strip (pre rest : String) (h : pre.data ≠ []) :
    jsReplaceFirst pre "" (pre ++ rest) = rest := by
  apply congrArg String.mk
  show replaceFirstAux pre.data [] ((pre ++ rest).data) = rest.data
  rw [String.data_append]
  exact replaceFirstAux_strip pre.data rest.data h

/-! ### The Viewfinder preview/build machine

State of the `Viewfinder` component (its `useState` hooks) together with the
preview fields of the global store, translated from `TabbedEditor.tsx`.
Transitions are driven by events, and each transition reports the Tauri
backend commands it invokes. -/

inductive BuildStatus where
  | idle | building | success | error
deriving DecidableEq

structure ViewState where
  previewUrl : Option String
  isExporting : Bool
  exportError : Option String
  pendingChanges : Bool
  autoRebuild : Bool
  isRunning : Bool
  storePreviewUrl : Option String
  captureFrameReg : Bool
  testControlsReg : Bool
  captureNodeReg : Bool
  console : List String
  buildStatus : BuildStatus
  buildMessage : String
deriving DecidableEq

/-- Initial component/store state (`useState` initialisers and the store's
initial `null` bridge functions). -/
def initViewState : ViewState :=
  { previewUrl := none, isExporting := false, exportError := none,
    pendingChanges := false, autoRebuild := true, isRunning := false,
    storePreviewUrl := none, captureFrameReg := false,
    testControlsReg := false, captureNodeReg := false, console := [],
    buildStatus := .idle, buildMessage := "" }

inductive BackendCall where
  | exportProjectWeb (force : Bool)
  | startPreviewServer (exportPath : String)
  | clearExportCache
  | startFileWatcher
  | stopFileWatcher
deriving DecidableEq

/-- Synchronous prefix of `runPreview` up to the awaited
`export_project_web` call (lines 347-365): clear the console, raise
`isExporting`, reset the error and the pending-changes indicator, report
"Exporting...", and invoke the export with the given `force` flag. -/
def runPreviewStartStep (force : Bool) (s : ViewState) :
    ViewState × List BackendCall :=
  ({ s with console := ["Exporting to HTML5..."], isExporting := true,
             exportError := none, pendingChanges := false,
             buildStatus := .building, buildMessage := "Exporting..." },
   [.exportProjectWeb force])

/-- Remainder of `runPreview` once the awaited calls settle
(lines 366-512).  `outcome` is the export result: a thrown error, or the
returned path string together with the preview-server outcome.  A result
prefixed `CACHED:` is reported as a cache hit and stripped; the server is
started on the resulting path; on success the preview URL is set and the
three bridge operations are registered together; a thrown error is logged and
recorded, and `isExporting` is lowered in every case. -/
def buildFinishedStep (outcome : Except String (String × Except String Nat))
    (s : ViewState) : ViewState × List BackendCall :=
  match outcome with
  | .error e =>
      ({ s with console := s.console ++ ["Failed: " ++ e],
                 exportError := some e, buildStatus := .error,
                 buildMessage := "Build failed", isExporting := false }, [])
  | .ok (exportResult, serverOutcome) =>
      let isCached := jsStartsWith "CACHED:" exportResult
      let exportPath :=
        if isCached then jsReplaceFirst "CACHED:" "" exportResult
        else exportResult
      let cacheMsg :=
        if isCached then "Using cached build (no changes detected)"
        else "Exported to: " ++ exportResult
      let s1 := { s with console := s.console ++ [cacheMsg] }
      match serverOutcome with
      | .error e =>
          ({ s1 with console := s1.console ++ ["Failed: " ++ e],
                     exportError := some e, buildStatus := .error,
                     buildMessage := "Build failed", isExporting := false },
           [.startPreviewServer exportPath])
      | .ok port =>
          let url := "http://127.0.0.1:" ++ toString port
          let portMsg := "Preview server started on port " ++ toString port
          ({ s1 with console := s1.console ++ [portMsg],
                     buildStatus := .success, buildMessage := "Ready",
                     previewUrl := some url, storePreviewUrl := some url,
                     captureFrameReg := true, testControlsReg := true,
                     captureNodeReg := true, isRunning := true,
                     isExporting := false },
           [.startPreviewServer exportPath])

/-- `stopPreview` (lines 533-541): clear both preview URLs and all three
bridge registrations together, stop running, log. -/
def stopPreviewStep (s : ViewState) : ViewState × List BackendCall :=
  ({ s with previewUrl := none, storePreviewUrl := none,
             captureFrameReg := false, testControlsReg := false,
             captureNodeReg := false, isRunning := false,
             console := s.console ++ ["Preview stopped"] }, [])

/-- The `project-files-changed` listener (lines 281-293).  It exists only
while the watcher effect is active (a preview URL is set); with auto-rebuild
on and no export in flight it starts `runPreview(true)`, otherwise it only
raises the pending-changes indicator. -/
def fileChangedStep (s : ViewState) : ViewState × List BackendCall :=
  if s.previewUrl.isSome then
    if s.autoRebuild && !s.isExporting then
      runPreviewStartStep true
        { s with buildStatus := .building, buildMessage := "Rebuilding..." }
    else
      ({ s with pendingChanges := true }, [])
  else (s, [])

/-- `forceRefresh` (lines 543-553): stop the preview, log, await
`clear_export_cache`, and on its success run `runPreview(true)`; a clear
failure is logged and no rebuild is started. -/
def forceRefreshStep (clearResult : Except String Unit) (s : ViewState) :
    ViewState × List BackendCall :=
  let s1 := (stopPreviewStep s).1
  let s2 := { s1 with console := s1.console ++ ["Clearing cache and rebuilding..."] }
  match clearResult with
  | .ok _ =>
      let r := runPreviewStartStep true s2
      (r.1, .clearExportCache :: r.2)
  | .error e =>
      ({ s2 with console := s2.console ++ ["Refresh failed: " ++ e] },
       [.clearExportCache])

deriving instance DecidableEq for Except

inductive VEvent where
  | runPreviewStart (force : Bool)
  | buildFinished (outcome : Except String (String × Except String Nat))
  | fileChanged
  | stopPreview
  | forceRefresh (clearResult : Except String Unit)
deriving DecidableEq

def stepVE (s : ViewState) : VEvent → ViewState × List BackendCall
  | .runPreviewStart force => runPreviewStartStep force s
  | .buildFinished outcome => buildFinishedStep outcome s
  | .fileChanged => fileChangedStep s
  | .stopPreview => stopPreviewStep s
  | .forceRefresh r => forceRefreshStep r s

/-- Run a sequence of events, accumulating the backend calls. -/
def runEvents (s : ViewState) : List VEvent → ViewState × List BackendCall
  | [] => (s, [])
  | e :: rest =>
      let r := stepVE s e
      let r' := runEvents r.1 rest
      (r'.1, r.2 ++ r'.2)

/-- Modelled from the spec: the Rust backend commands `export_project_web` and
`clear_export_cache` are not under src/ (only their frontend callers are).
Following spec sections 4.2-4.3, export computes the current fingerprint,
answers `CACHED:artifact` on a non-forced hit, otherwise runs the real build,
storing the artifact on success and leaving the cache untouched on failure;
the single-slot cache maps the latest fingerprint to its artifact. -/
def exportBackendModel (cache : Option (Nat × String)) (fp : Nat)
    (force : Bool) (build : Except String String) :
    Option (Nat × String) × Except String String :=
  let hit : Option String :=
    match cache with
    | some (fp', art) => if !force && (fp' == fp) then some art else none
    | none => none
  match hit with
  | some art => (cache, .ok ("CACHED:" ++ art))
  | none =>
      match build with
      | .ok art => (some (fp, art), .ok art)
      | .error e => (cache, .error e)

/-- Modelled from the spec: `clear_export_cache` removes the project's cache
entries. -/
def clearCacheModel (_cache : Option (Nat × String)) : Option (Nat × String) :=
  none

/-! ### Claim theorems about the preview/build machine -/

/-- C5: when `runPreview` receives an export result reporting a cache hit
(a string prefixed `CACHED:`), the operation does not fail: the cached outcome
is logged, the prefix is stripped, and the remaining artifact path is served
through the preview server exactly as a freshly built artifact would be —
the same server invocation, URL, registrations and success status. -/
theorem C5_cached_hit_served (p : String) (port : Nat) (s : ViewState)
    (hp : jsStartsWith "CACHED:" p = false) :
    (buildFinishedStep (.ok ("CACHED:" ++ p, .ok port)) s).2
        = [BackendCall.startPreviewServer p] ∧
    "Using cached build (no changes detected)"
        ∈ (buildFinishedStep (.ok ("CACHED:" ++ p, .ok port)) s).1.console ∧
    (buildFinishedStep (.ok ("CACHED:" ++ p, .ok port)) s).1.exportError
        = s.exportError ∧
    (buildFinishedStep (.ok ("CACHED:" ++ p, .ok port)) s).1.buildStatus
        = BuildStatus.success ∧
    (buildFinishedStep (.ok ("CACHED:" ++ p, .ok port)) s).2
        = (buildFinishedStep (.ok (p, .ok port)) s).2 ∧
    (buildFinishedStep (.ok ("CACHED:" ++ p, .ok port)) s).1.previewUrl
        = (buildFinishedStep (.ok (p, .ok port)) s).1.previewUrl ∧
    (buildFinishedStep (.ok ("CACHED:" ++ p, .ok port)) s).1.storePreviewUrl
        = (buildFinishedStep (.ok (p, .ok port)) s).1.storePreviewUrl ∧
    (buildFinishedStep (.ok ("CACHED:" ++ p, .ok port)) s).1.captureFrameReg
        = (buildFinishedStep (.ok (p, .ok port)) s).1.captureFrameReg := by
  have hc : jsStartsWith "CACHED:" ("CACHED:" ++ p) = true :=
    jsStartsWith_append "CACHED:" p
  have hst : jsReplaceFirst "CACHED:" "" ("CACHED:" ++ p) = p :=
    jsReplaceFirst_strip "CACHED:" p (by decide)
  refine ⟨?_, ?_, ?_, ?_, ?_, ?_, ?_, ?_⟩ <;>
    simp [buildFinishedStep, hc, hst, hp]

theorem C5_witness :
    (buildFinishedStep (.ok ("CACHED:" ++ "web/index.html", .ok 4321))
        initViewState).2
      = [BackendCall.startPreviewServer "web/index.html"] :=
  (C5_cached_hit_served "web/index.html" 4321 initViewState (by decide)).1

/-- C6: `clear_export_cache` is invoked only by the user-triggered
force-refresh transition — never by the automatic file-change rebuild path
nor any other transition — and a successful clear is immediately followed by
a forced rebuild (`runPreview(true)`); since clearing empties the
(spec-modelled) cache and a forced export skips the lookup, a real build runs
with no stale hit possible. -/
theorem C6_clear_only_from_force_refresh (s : ViewState) (e : VEvent)
    (fp : Nat) (cache : Option (Nat × String)) (build : Except String String)
    (hmem : BackendCall.clearExportCache ∈ (stepVE s e).2) :
    (∃ r, e = VEvent.forceRefresh r) ∧
    (stepVE s (VEvent.forceRefresh (Except.ok ()))).2
      = [BackendCall.clearExportCache, BackendCall.exportProjectWeb true] ∧
    (exportBackendModel (clearCacheModel cache) fp false build).2 = build ∧
    (exportBackendModel cache fp true build).2 = build := by
  refine ⟨?_, rfl, ?_, ?_⟩
  · cases e with
    | runPreviewStart f => simp [stepVE, runPreviewStartStep] at hmem
    | buildFinished o =>
        rcases o with e' | ⟨r, so⟩
        · simp [stepVE, buildFinishedStep] at hmem
        · rcases so with e' | port <;> simp [stepVE, buildFinishedStep] at hmem
    | fileChanged =>
        rw [stepVE, fileChangedStep] at hmem
        split_ifs at hmem with h1 h2
        · simp [runPreviewStartStep] at hmem
        · simp at hmem
        · simp at hmem
    | stopPreview => simp [stepVE, stopPreviewStep] at hmem
    | forceRefresh r => exact ⟨r, rfl⟩
  · cases build <;> rfl
  · rcases cache with _ | ⟨fp', art⟩ <;> cases build <;> rfl

theorem C6_witness :
    ∃ r, VEvent.forceRefresh (Except.ok ()) = VEvent.forceRefresh r :=
  (C6_clear_only_from_force_refresh initViewState
      (VEvent.forceRefresh (Except.ok ())) 0 none (Except.ok "a")
      (by decide)).1

/-- State reached after one successful build and the start of a second,
still-in-flight build: the concrete scenario refuting C3. -/
def c3Prefix : ViewState :=
  (runEvents initViewState
    [VEvent.runPreviewStart false,
     VEvent.buildFinished (Except.ok ("art1", Except.ok 8080)),
     VEvent.runPreviewStart true]).1

/-- C3 counterexample: a file-change event arriving while a build is in
flight produces zero follow-up builds, not exactly one.  The change only
raises the pending-changes indicator and invokes nothing; the completion of
the in-flight build invokes only the preview server, no export; and the
indicator is still raised afterwards, waiting for a manual rebuild. -/
theorem C3_counterexample :
    c3Prefix.isExporting = true ∧
    (stepVE c3Prefix VEvent.fileChanged).2 = [] ∧
    (stepVE c3Prefix VEvent.fileChanged).1.pendingChanges = true ∧
    (stepVE (stepVE c3Prefix VEvent.fileChanged).1
        (VEvent.buildFinished (Except.ok ("art2", Except.ok 8080)))).2
      = [BackendCall.startPreviewServer "art2"] ∧
    (stepVE (stepVE c3Prefix VEvent.fileChanged).1
        (VEvent.buildFinished (Except.ok ("art2", Except.ok 8080)))).1.pendingChanges
      = true := by
  decide

/-- C3 amended: a rebuild trigger arriving while a build is in flight starts
no follow-up build at all — it only sets the pending-changes indicator; no
build-completion transition ever invokes an export, and the indicator is
cleared only when a preview run is next started (reading inputs at that later
time). -/
theorem C3_amended_pending_indicator (s s' : ViewState)
    (o : Except String (String × Except String Nat))
    (h1 : s.previewUrl.isSome = true) (h2 : s.isExporting = true) :
    fileChangedStep s = ({ s with pendingChanges := true }, []) ∧
    (∀ c ∈ (buildFinishedStep o s').2, ∀ f, c ≠ BackendCall.exportProjectWeb f) ∧
    (∀ f, (runPreviewStartStep f s').1.pendingChanges = false) := by
  refine ⟨?_, ?_, fun _ => rfl⟩
  · simp [fileChangedStep, h1, h2]
  · intro c hc f
    rcases o with e' | ⟨r, so⟩
    · simp [buildFinishedStep] at hc
    · rcases so with e' | port <;>
        · simp [buildFinishedStep] at hc
          subst hc
          simp

/-- Concrete mid-build state used to witness the amended C3. -/
def c3SampleState : ViewState :=
  { initViewState with previewUrl := some "http://127.0.0.1:1", isExporting := true }

theorem C3_amended_witness :
    fileChangedStep c3SampleState
      = ({ c3SampleState with pendingChanges := true }, []) :=
  (C3_amended_pending_indicator c3SampleState
      initViewState (Except.error "e") rfl rfl).1

/-- The invariant of C9: the three bridge registrations always agree, and
they are set only while the store preview URL is set. -/
def bridgeRegsConsistent (s : ViewState) : Prop :=
  s.captureFrameReg = s.testControlsReg ∧
  s.testControlsReg = s.captureNodeReg ∧
  (s.captureFrameReg = true → s.storePreviewUrl.isSome = true)

theorem stepVE_preserves_regs (s : ViewState) (e : VEvent)
    (h : bridgeRegsConsistent s) : bridgeRegsConsistent (stepVE s e).1 := by
  obtain ⟨h1, h2, h3⟩ := h
  cases e with
  | runPreviewStart f => exact ⟨h1, h2, h3⟩
  | buildFinished o =>
      rcases o with e' | ⟨r, so⟩
      · exact ⟨h1, h2, h3⟩
      · rcases so with e' | port
        · exact ⟨h1, h2, h3⟩
        · exact ⟨rfl, rfl, fun _ => rfl⟩
  | fileChanged =>
      rw [stepVE, fileChangedStep]
      split_ifs with hg1 hg2
      · exact ⟨h1, h2, h3⟩
      · exact ⟨h1, h2, h3⟩
      · exact ⟨h1, h2, h3⟩
  | stopPreview => exact ⟨rfl, rfl, fun hh => by cases hh⟩
  | forceRefresh r =>
      rcases r with e' | u <;> exact ⟨rfl, rfl, fun hh => by cases hh⟩

theorem runEvents_preserves_regs (tr : List VEvent) :
    ∀ s, bridgeRegsConsistent s → bridgeRegsConsistent (runEvents s tr).1 := by
  induction tr with
  | nil => intro s h; exact h
  | cons e rest ih => intro s h; exact ih _ (stepVE_preserves_regs s e h)

/-- C9: after any event sequence from the initial state, the three bridge
operations in the global store (captureFrame, testControls, captureNode) are
all registered or all unregistered, and registered only while a store preview
URL is set — `runPreview` registers all three together only in its success
branch, which also sets the URL — and `stopPreview` clears the URL and all
three together. -/
theorem C9_bridge_registration_invariant (tr : List VEvent) (s : ViewState) :
    bridgeRegsConsistent (runEvents initViewState tr).1 ∧
    (stopPreviewStep s).1.storePreviewUrl = none ∧
    (stopPreviewStep s).1.captureFrameReg = false ∧
    (stopPreviewStep s).1.testControlsReg = false ∧
    (stopPreviewStep s).1.captureNodeReg = false := by
  refine ⟨?_, rfl, rfl, rfl, rfl⟩
  exact runEvents_preserves_regs tr initViewState ⟨rfl, rfl, fun h => by cases h⟩

theorem C9_witness :
    bridgeRegsConsistent
      (runEvents initViewState
        [VEvent.runPreviewStart false,
         VEvent.buildFinished (Except.ok ("a", Except.ok 1)),
         VEvent.stopPreview]).1 :=
  (C9_bridge_registration_invariant
      [VEvent.runPreviewStart false,
       VEvent.buildFinished (Except.ok ("a", Except.ok 1)),
       VEvent.stopPreview] initViewState).1

/-! ### The file-watcher effect lifecycle

The watcher effect (`TabbedEditor.tsx` lines 273-299) depends on
`[previewUrl, projectPath, autoRebuild, isExporting]`; its body returns
early with no cleanup when there is no preview URL or no project, and
otherwise invokes `start_file_watcher` and registers a cleanup that invokes
`stop_file_watcher`.  React runs the previous cleanup before the next body
and on unmount. -/

structure EffectDeps where
  previewUrl : Option String
  projectPath : Option String
  autoRebuild : Bool
  isExporting : Bool
deriving DecidableEq

/-- Effect body: the state component records the deps under which a watcher
(and its cleanup) is active, `none` when the body returned early. -/
def effectBody (d : EffectDeps) : Option EffectDeps × List BackendCall :=
  if d.previewUrl.isSome && d.projectPath.isSome then
    (some d, [.startFileWatcher])
  else (none, [])

inductive EffectEvent where
  | render (d : EffectDeps)
  | unmount
deriving DecidableEq

def effectStep (st : Option EffectDeps) :
    EffectEvent → Option EffectDeps × List BackendCall
  | .render d =>
      let stops : List BackendCall := if st.isSome then [.stopFileWatcher] else []
      let r := effectBody d
      (r.1, stops ++ r.2)
  | .unmount => (none, if st.isSome then [.stopFileWatcher] else [])

def runEffect (st : Option EffectDeps) :
    List EffectEvent → Option EffectDeps × List BackendCall
  | [] => (st, [])
  | e :: rest =>
      let r := effectStep st e
      let r' := runEffect r.1 rest
      (r'.1, r.2 ++ r'.2)

theorem effectStep_active (st : Option EffectDeps) (e : EffectEvent)
    (d : EffectDeps) (h : (effectStep st e).1 = some d) :
    d.previewUrl.isSome = true ∧ d.projectPath.isSome = true := by
  cases e with
  | unmount => simp [effectStep] at h
  | render dd =>
      by_cases hc : dd.previewUrl.isSome && dd.projectPath.isSome
      · have h1 : (effectStep st (.render dd)).1 = some dd := by
          simp [effectStep, effectBody, hc]
        rw [h1] at h
        cases h
        rw [Bool.and_eq_true] at hc
        exact ⟨hc.1, hc.2⟩
      · have h1 : (effectStep st (.render dd)).1 = none := by
          simp [effectStep, effectBody, hc]
        rw [h1] at h
        cases h

theorem runEffect_watcher_scoped (tr : List EffectEvent) :
    ∀ st : Option EffectDeps,
      (∀ d0, st = some d0 →
        d0.previewUrl.isSome = true ∧ d0.projectPath.isSome = true) →
      ∀ d, (runEffect st tr).1 = some d →
        d.previewUrl.isSome = true ∧ d.projectPath.isSome = true := by
  induction tr with
  | nil => intro st h d hd; exact h d hd
  | cons e rest ih =>
      intro st h d hd
      exact ih _ (fun d0 h0 => effectStep_active st e d0 h0) d hd

/-- C8: the file watcher is started exactly when a preview session is active:
a render with a preview URL and an open project runs any previous cleanup and
then invokes `start_file_watcher`, registering a cleanup; the cleanup — on
re-render or unmount — invokes `stop_file_watcher`; and after any event
sequence from the watcher-off state, a running watcher implies an active
preview URL and project, so watching never outlives the active preview. -/
theorem C8_watcher_lifecycle (tr : List EffectEvent) (st : Option EffectDeps)
    (d : EffectDeps)
    (hurl : d.previewUrl.isSome = true) (hpath : d.projectPath.isSome = true) :
    effectStep st (EffectEvent.render d)
      = (some d, (if st.isSome then [BackendCall.stopFileWatcher] else [])
          ++ [BackendCall.startFileWatcher]) ∧
    effectStep st EffectEvent.unmount
      = (none, if st.isSome then [BackendCall.stopFileWatcher] else []) ∧
    (∀ d', (runEffect none tr).1 = some d' →
      d'.previewUrl.isSome = true ∧ d'.projectPath.isSome = true) := by
  refine ⟨?_, rfl, ?_⟩
  · simp [effectStep, effectBody, hurl, hpath]
  · exact runEffect_watcher_scoped tr none (fun d0 h0 => by cases h0)

/-- Active deps sample used to witness C8. -/
def sampleDeps : EffectDeps :=
  { previewUrl := some "http://127.0.0.1:2", projectPath := some "/proj",
    autoRebuild := true, isExporting := false }

theorem C8_witness :
    effectStep none (EffectEvent.render sampleDeps)
      = (some sampleDeps,
          (if (none : Option EffectDeps).isSome
            then [BackendCall.stopFileWatcher] else [])
          ++ [BackendCall.startFileWatcher]) :=
  (C8_watcher_lifecycle [] none sampleDeps rfl rfl).1

/-! ### Play-mode action resolution

Translated from the store's `sendMessage` (lines 465-526): mapping the
trimmed, lowercased request text onto the project's declared input mappings,
with a movement default, a fixed fallback, and `[...new Set(...)]`
deduplication before dispatch to `testControls`. -/

structure InputMapping where
  action : String
  keys : List String
  description : String
deriving DecidableEq

/-- Contiguous-sublist test on character lists. -/
def listIsInfixOf (sub : List Char) : List Char → Bool
  | [] => sub.isEmpty
  | c :: rest => sub.isPrefixOf (c :: rest) || listIsInfixOf sub rest

/-- JS `String.prototype.includes`: substring test. -/
def jsIncludes (sub s : String) : Bool := listIsInfixOf sub.data s.data

/-- JS regex word characters (the `\w` class): letters, digits, underscore. -/
def isWordChar (c : Char) : Bool := c.isAlphanum || c = '_'

def prevOkB : Option Char → Bool
  | none => true
  | some p => !isWordChar p

def afterOkB : List Char → Bool
  | [] => true
  | d :: _ => !isWordChar d

/-- Occurrence of word `w` in `s` delimited by `\b` boundaries, scanning with
the previous character. -/
def hasWordFrom (w : List Char) (prev : Option Char) : List Char → Bool
  | [] => false
  | c :: rest =>
      (prevOkB prev && w.isPrefixOf (c :: rest)
        && afterOkB ((c :: rest).drop w.length))
      || hasWordFrom w (some c) rest

/-- JS `/\bw\b/i.test(s)` for a lowercase word `w` on lowercase text. -/
def jsWordTest (w s : String) : Bool := hasWordFrom w.data none s.data

/-- JS `[...new Set(xs)]`: first-occurrence-preserving deduplication. -/
def dedupAux : List String → List String → List String
  | _, [] => []
  | seen, a :: rest =>
      if a ∈ seen then dedupAux seen rest else a :: dedupAux (a :: seen) rest

def jsSetDedup (l : List String) : List String := dedupAux [] l

/-- Per-mapping test of the specific-request branch (lines 490-503). -/
def mappingMatches (input : String) (m : InputMapping) : Bool :=
  let actionWords := (m.action.toLower).splitOn "_"
  let descLower := m.description.toLower
  actionWords.any (fun w => decide (2 < w.length) && jsIncludes w input)
  || jsIncludes (m.action.toLower) input
  || (descLower.splitOn " ").any (fun w => decide (3 < w.length) && jsIncludes w input)
  || (jsIncludes "jump" m.action && jsIncludes "jump" input)
  || (jsIncludes "attack" m.action
      && (jsIncludes "attack" input || jsIncludes "click" input))
  || (jsIncludes "interact" m.action
      && (jsIncludes "interact" input || jsIncludes "use" input))

/-- Action selection before defaulting and deduplication (lines 474-504);
`input` is the trimmed, lowercased request text, so the case-insensitive
regex alternations become substring tests. -/
def matchedActions (input : String) (inputMappings : List InputMapping) :
    List String :=
  let wantsAll := jsIncludes "all" input || jsIncludes "every" input
    || jsIncludes "full" input
  let wantsMovement := jsIncludes "movement" input || jsIncludes "wasd" input
    || jsIncludes "walk" input || jsIncludes "move around" input
    || jsIncludes "locomotion" input
  let wantsCamera := jsIncludes "camera" input || jsIncludes "look" input
    || jsIncludes "view" input || jsIncludes "orbit" input
    || jsIncludes "rotate" input
  let wantsControls := jsIncludes "control" input
  let mentionsSpecific := jsWordTest "jump" input || jsWordTest "attack" input
    || jsWordTest "interact" input
  if wantsAll || (wantsControls && !mentionsSpecific) then
    inputMappings.map (fun m => m.action)
  else if wantsMovement || wantsCamera then
    (inputMappings.filter (fun m => jsIncludes "move" m.action
      || jsIncludes "walk" m.action || jsIncludes "look" m.action)).map
      (fun m => m.action)
  else
    (inputMappings.filter (fun m => mappingMatches input m)).map
      (fun m => m.action)

/-- Default of lines 507-517: the declared movement actions (name containing
"move" or "walk"), and when none are declared the fixed fallback list. -/
def movementDefaults (inputMappings : List InputMapping) : List String :=
  if 0 < (inputMappings.filter (fun m => jsIncludes "move" m.action
      || jsIncludes "walk" m.action)).length then
    (inputMappings.filter (fun m => jsIncludes "move" m.action
      || jsIncludes "walk" m.action)).map (fun m => m.action)
  else ["move_up", "move_left", "move_right", "move_down"]

def actionsWithDefault (base : List String)
    (inputMappings : List InputMapping) : List String :=
  if base.length = 0 then movementDefaults inputMappings else base

/-- The action list dispatched to `testControls` (line 526). -/
def resolveActions (input : String) (inputMappings : List InputMapping) :
    List String :=
  jsSetDedup (actionsWithDefault (matchedActions input inputMappings) inputMappings)

theorem dedupAux_spec (l : List String) :
    ∀ seen, (dedupAux seen l).Nodup ∧ ∀ x ∈ dedupAux seen l, x ∉ seen := by
  induction l with
  | nil =>
      intro seen
      exact ⟨List.nodup_nil, by intro x hx; cases hx⟩
  | cons a rest ih =>
      intro seen
      by_cases ha : a ∈ seen
      · have he : dedupAux seen (a :: rest) = dedupAux seen rest := by
          simp [dedupAux, ha]
        rw [he]
        exact ih seen
      · have he : dedupAux seen (a :: rest) = a :: dedupAux (a :: seen) rest := by
          simp [dedupAux, ha]
        rw [he]
        obtain ⟨hn, hm⟩ := ih (a :: seen)
        refine ⟨List.nodup_cons.mpr ⟨fun hmem => ?_, hn⟩, ?_⟩
        · exact (hm a hmem) (List.mem_cons_self a seen)
        · intro x hx
          rcases List.mem_cons.mp hx with rfl | hx'
          · exact ha
          · intro hxs
            exact (hm x hx') (List.mem_cons_of_mem a hxs)

theorem jsSetDedup_ne_nil (l : List String) (h : l ≠ []) : jsSetDedup l ≠ [] := by
  cases l with
  | nil => exact absurd rfl h
  | cons a rest =>
      show dedupAux [] (a :: rest) ≠ []
      simp [dedupAux]

theorem movementDefaults_ne_nil (inputMappings : List InputMapping) :
    movementDefaults inputMappings ≠ [] := by
  rw [movementDefaults]
  split_ifs with hl
  · intro hnil
    rw [List.map_eq_nil_iff] at hnil
    rw [hnil] at hl
    simp at hl
  · simp

theorem actionsWithDefault_ne_nil (base : List String)
    (inputMappings : List InputMapping) :
    actionsWithDefault base inputMappings ≠ [] := by
  rw [actionsWithDefault]
  split_ifs with hl
  · exact movementDefaults_ne_nil inputMappings
  · intro hnil
    rw [hnil] at hl
    simp at hl

/-- C7: for every play-mode request and every declared input-mapping table,
the action list dispatched to `testControls` contains no duplicates and is
never empty; when no declared action matched the request text, it defaults to
the declared movement actions (names containing "move" or "walk"), and when
none are declared, to the fixed list move_up, move_left, move_right,
move_down (`movementDefaults`). -/
theorem C7_actions_nodup_nonempty (input : String)
    (inputMappings : List InputMapping) :
    (resolveActions input inputMappings).Nodup ∧
    resolveActions input inputMappings ≠ [] ∧
    (matchedActions input inputMappings = [] →
      resolveActions input inputMappings =
        jsSetDedup (movementDefaults inputMappings)) := by
  refine ⟨(dedupAux_spec _ []).1, ?_, ?_⟩
  · exact jsSetDedup_ne_nil _ (actionsWithDefault_ne_nil _ _)
  · intro h
    rw [resolveActions, h]
    rfl

theorem C7_witness :
    resolveActions "" [] = jsSetDedup (movementDefaults []) ∧
      resolveActions "" [] ≠ [] :=
  ⟨(C7_actions_nodup_nonempty "" []).2.2 (by decide),
    (C7_actions_nodup_nonempty "" []).2.1⟩

end Tav
